import Mathlib

/-!
Verification of the model-inference service wrapper in `server/core.py`
(classes `Embedding`, `Reranker`, `Summarization` and the async entry
points `embed_texts`, `rerank_documents`, `summarize_text`).

Modelling choices:
* The pretrained models are external collaborators; each class carries its
  model handle as an oracle function (`encode`, `compute_score`,
  `pipelineCall`).  Scores and embedding coordinates are modelled as `Int`
  (the code treats them as opaque ordered numbers; only ordering matters).
* Every method returns a record holding the Python result (`Except` for
  raised exceptions), the list of model invocations made (so "performs no
  model call" / "invokes the model exactly once" are statable), and the
  list of `logger` calls.
* Python truthiness on strings: `not s` is `s.isEmpty`; `not s.strip()` is
  `s.trim.isEmpty`.  `isinstance(x, str)` is always true in the typed
  embedding.
* Python `sorted(..., key=lambda x: x[1], reverse=True)` is a stable sort
  by descending key; it is modelled by Mathlib's stable `insertionSort`
  with the relation `fun a b => b.2 ≤ a.2`.
* `zip(*reranked)` on an empty `reranked` raises `ValueError: not enough
  values to unpack (expected 2, got 0)`; this is modelled faithfully.
-/

namespace Resumidor

/-- Python `s.strip()`: the string with leading and trailing whitespace
removed, computed on the character list (kernel-reducible, unlike
`String.trim`). -/
def pyStrip (s : String) : String :=
  ⟨((s.data.dropWhile Char.isWhitespace).reverse.dropWhile Char.isWhitespace).reverse⟩

/-- One call to `logger(msg, level)` from `loggings`. -/
structure LogEntry where
  msg : String
  level : String
deriving DecidableEq, Repr

/-- Python exceptions that `server/core.py` can raise. -/
inductive PyError where
  | valueError (msg : String)
  | indexError (msg : String)
deriving DecidableEq, Repr

/-- The `Embedding` class: its model handle is the oracle `encode`, standing
for `self._model.encode(text, task="text-matching", max_length=2048)` (the
fixed keyword arguments are folded into the oracle). -/
structure Embedding where
  encode : String → List Int

/-- Observable outcome of one `Embedding.embed` call: the returned value or
raised exception, the arguments of the model calls made, and the log lines. -/
structure EmbedOut where
  result : Except PyError (List (List Int))
  calls : List String
  logs : List LogEntry

/-- `Embedding.embed` from `server/core.py`: validates that `texts` is a
non-empty list of non-empty (after strip) strings, logs, and maps the model
encoder over the texts in order. -/
def Embedding.embed (E : Embedding) (texts : List String) : EmbedOut :=
  if texts.isEmpty || !(texts.all fun t => !(pyStrip t).isEmpty) then
    { result := .error (.valueError "Input texts must be a non-empty list of non-empty strings.")
      calls := []
      logs := [] }
  else
    { result := .ok (texts.map E.encode)
      calls := texts
      logs := [⟨"Generating embeddings for " ++ toString texts.length ++ " texts.", "info"⟩] }

/-- The `Reranker` class: its model handle is the oracle `compute_score`,
standing for `self._model.compute_score(sentence_pairs, max_length=1024)`;
it receives the list of `[query, doc]` pairs and returns a list of scores. -/
structure Reranker where
  compute_score : List (List String) → List Int

/-- Observable outcome of one `Reranker.rerank` call. -/
structure RerankOut where
  result : Except PyError (List String × List Int)
  calls : List (List (List String))
  logs : List LogEntry

/-- `Reranker.rerank` from `server/core.py`: validates the query, handles the
empty and fewer-than-two document branches with a warning and `([], [])`,
otherwise scores all `[query, doc]` pairs, sorts the `(document, score)`
pairs stably by descending score, and unzips.  The dead `len(documents) == 1`
branch after the `< 2` guard is reproduced as in the source. -/
def Reranker.rerank (R : Reranker) (query : String) (documents : List String) : RerankOut :=
  if query.isEmpty || (pyStrip query).isEmpty then
    { result := .error (.valueError "Query must be a non-empty string.")
      calls := []
      logs := [] }
  else if documents.isEmpty then
    { result := .ok ([], [])
      calls := []
      logs := [⟨"Received empty documents list for reranking.", "warning"⟩] }
  else if documents.length < 2 then
    { result := .ok ([], [])
      calls := []
      logs := [⟨"No documents provided for reranking.", "warning"⟩] }
  else
    let sentence_pairs := documents.map fun doc => [query, doc]
    let scores := R.compute_score sentence_pairs
    let logs := [LogEntry.mk
      ("Reranking " ++ toString documents.length ++ " documents for query: " ++ query) "info"]
    if documents.length == 1 then
      { result := .ok ([documents.headD ""], [scores.headD 0])
        calls := [sentence_pairs]
        logs := logs }
    else
      let reranked := (documents.zip scores).insertionSort fun a b => b.2 ≤ a.2
      if reranked.isEmpty then
        { result := .error (.valueError "not enough values to unpack (expected 2, got 0)")
          calls := [sentence_pairs]
          logs := logs }
      else
        { result := .ok (reranked.map Prod.fst, reranked.map Prod.snd)
          calls := [sentence_pairs]
          logs := logs }

/-- `Reranker.rerank` with the dead `len(documents) == 1` branch removed,
used to state that the branch is unreachable. -/
def Reranker.rerankNoSingleton (R : Reranker) (query : String) (documents : List String) :
    RerankOut :=
  if query.isEmpty || (pyStrip query).isEmpty then
    { result := .error (.valueError "Query must be a non-empty string.")
      calls := []
      logs := [] }
  else if documents.isEmpty then
    { result := .ok ([], [])
      calls := []
      logs := [⟨"Received empty documents list for reranking.", "warning"⟩] }
  else if documents.length < 2 then
    { result := .ok ([], [])
      calls := []
      logs := [⟨"No documents provided for reranking.", "warning"⟩] }
  else
    let sentence_pairs := documents.map fun doc => [query, doc]
    let scores := R.compute_score sentence_pairs
    let logs := [LogEntry.mk
      ("Reranking " ++ toString documents.length ++ " documents for query: " ++ query) "info"]
    let reranked := (documents.zip scores).insertionSort fun a b => b.2 ≤ a.2
    if reranked.isEmpty then
      { result := .error (.valueError "not enough values to unpack (expected 2, got 0)")
        calls := [sentence_pairs]
        logs := logs }
    else
      { result := .ok (reranked.map Prod.fst, reranked.map Prod.snd)
        calls := [sentence_pairs]
        logs := logs }

/-- The `Summarization` class: its model handle is the oracle `pipelineCall`,
standing for `self._summarizer(input, max_length, min_length, do_sample)`;
it returns the list of `summary_text` fields of the generated dicts. -/
structure Summarization where
  pipelineCall : String → Nat → Nat → Bool → List String

/-- Observable outcome of one `Summarization.summarize` call; each model call
is recorded as `(input, max_length, min_length, do_sample)`. -/
structure SummarizeOut where
  result : Except PyError String
  calls : List (String × Nat × Nat × Bool)
  logs : List LogEntry

/-- `Summarization.summarize` from `server/core.py`: checks text, then query,
then the 4096-character bound, each raising `ValueError`; otherwise builds
the combined f-string input, calls the pipeline once with
`max_length=150, min_length=30, do_sample=False`, and returns
`summaries[0]["summary_text"]` (an `IndexError` if the model returned no
summaries). -/
def Summarization.summarize (S : Summarization) (query text : String) : SummarizeOut :=
  if text.isEmpty || (pyStrip text).isEmpty then
    { result := .error (.valueError "Input text must be a non-empty string.")
      calls := []
      logs := [] }
  else if query.isEmpty || (pyStrip query).isEmpty then
    { result := .error (.valueError "Query must be a non-empty string.")
      calls := []
      logs := [] }
  else if text.length > 4096 then
    { result := .error (.valueError "Input text exceeds the maximum length of 4096 characters.")
      calls := []
      logs := [] }
  else
    let input := "**Query: " ++ query ++ "\n\n**" ++ text
    let summaries := S.pipelineCall input 150 30 false
    let logs := [LogEntry.mk ("Summarizing text of length " ++ toString text.length ++ ".") "info"]
    match summaries with
    | [] =>
      { result := .error (.indexError "list index out of range")
        calls := [(input, 150, 30, false)]
        logs := logs }
    | s :: _ =>
      { result := .ok s
        calls := [(input, 150, 30, false)]
        logs := logs }

/-- Async entry point `embed_texts`: `asyncio.to_thread(_embedding.embed, texts)`
runs the synchronous method on a worker thread and resolves with its result
(or rejects with its exception); its observable outcome is that of the
synchronous call, so the thread offload is modelled as direct application. -/
def embed_texts (E : Embedding) (texts : List String) : EmbedOut :=
  E.embed texts

/-- Async entry point `rerank_documents`, forwarding to `Reranker.rerank`
through `asyncio.to_thread`. -/
def rerank_documents (R : Reranker) (query : String) (documents : List String) : RerankOut :=
  R.rerank query documents

/-- Async entry point `summarize_text`, forwarding to
`Summarization.summarize` through `asyncio.to_thread`. -/
def summarize_text (S : Summarization) (query text : String) : SummarizeOut :=
  S.summarize query text

/-- Concrete embedding oracle used to witness the theorems on a closed input. -/
def embeddingC : Embedding :=
  ⟨fun t => [Int.ofNat t.length]⟩

/-- Concrete reranker oracle (scores a pair by the document's length), one
score per sentence pair, used to witness the theorems on a closed input. -/
def rerankerC : Reranker :=
  ⟨fun pairs => pairs.map fun p => Int.ofNat (p.getD 1 "").length⟩

/-- Concrete summarization oracle returning one fixed non-empty summary,
used to witness the theorems on a closed input. -/
def summarizationC : Summarization :=
  ⟨fun _ _ _ _ => ["ok summary"]⟩

lemma pyStrip_empty_string : pyStrip "" = "" := rfl

lemma isEmpty_false_of_pyStrip {s : String} (h : (pyStrip s).isEmpty = false) :
    s.isEmpty = false := by
  by_contra hne
  rw [Bool.not_eq_false, String.isEmpty_iff] at hne
  subst hne
  rw [pyStrip_empty_string] at h
  exact absurd ((String.isEmpty_iff "").mpr rfl) (by simp [h])

lemma string_guard_false {s : String} (h : (pyStrip s).isEmpty = false) :
    (s.isEmpty || (pyStrip s).isEmpty) = false := by
  rw [isEmpty_false_of_pyStrip h, h]
  rfl

/-- C2: for a valid (non-empty, non-whitespace) query and fewer than two
documents (including zero), `rerank` returns `([], [])`, makes no model
call, raises no error, and logs exactly one warning. -/
theorem rerank_too_few_documents (R : Reranker) (query : String) (documents : List String)
    (hq : (pyStrip query).isEmpty = false) (hlen : documents.length < 2) :
    (R.rerank query documents).result = .ok ([], []) ∧
    (R.rerank query documents).calls = [] ∧
    ∃ e, (R.rerank query documents).logs = [e] ∧ e.level = "warning" := by
  have hg := string_guard_false hq
  cases documents with
  | nil =>
    refine ⟨?_, ?_, ⟨⟨"Received empty documents list for reranking.", "warning"⟩, ?_, rfl⟩⟩ <;>
      simp [Reranker.rerank, hg]
  | cons d ds =>
    cases ds with
    | nil =>
      refine ⟨?_, ?_, ⟨⟨"No documents provided for reranking.", "warning"⟩, ?_, rfl⟩⟩ <;>
        simp [Reranker.rerank, hg]
    | cons d2 ds2 => simp at hlen; omega

/-- Witness for C2 at the concrete input `rerank("q", ["only doc"])`. -/
theorem rerank_too_few_documents_witness :
    (rerankerC.rerank "q" ["only doc"]).result = .ok ([], []) ∧
    (rerankerC.rerank "q" ["only doc"]).calls = [] ∧
    ∃ e, (rerankerC.rerank "q" ["only doc"]).logs = [e] ∧ e.level = "warning" :=
  rerank_too_few_documents rerankerC "q" ["only doc"] (by decide) (by decide)

/-- C8: for an empty or whitespace-only query, `rerank` raises `ValueError`
("InvalidInput") whatever the documents are — in particular it raises, rather
than returning `([], [])`, on an empty documents list — and makes no model
call and writes no log. -/
theorem rerank_invalid_query (R : Reranker) (query : String) (documents : List String)
    (h : (pyStrip query).isEmpty = true) :
    (R.rerank query documents).result = .error (.valueError "Query must be a non-empty string.") ∧
    (R.rerank query documents).calls = [] ∧
    (R.rerank query documents).logs = [] := by
  have hg : (query.isEmpty || (pyStrip query).isEmpty) = true := by rw [h]; simp
  refine ⟨?_, ?_, ?_⟩ <;> simp [Reranker.rerank, hg]

/-- Witness for C8 at the concrete input `rerank("   ", [])`. -/
theorem rerank_invalid_query_witness :
    (rerankerC.rerank "   " []).result
      = .error (.valueError "Query must be a non-empty string.") ∧
    (rerankerC.rerank "   " []).calls = [] ∧
    (rerankerC.rerank "   " []).logs = [] :=
  rerank_invalid_query rerankerC "   " [] (by decide)

/-- C4: `embed` raises `ValueError` ("InvalidInput") and makes no model call
whenever `texts` is empty or some element is empty or whitespace-only. -/
theorem embed_invalid_input (E : Embedding) (texts : List String)
    (h : texts = [] ∨ ∃ t ∈ texts, (pyStrip t).isEmpty = true) :
    (E.embed texts).result
      = .error (.valueError "Input texts must be a non-empty list of non-empty strings.") ∧
    (E.embed texts).calls = [] := by
  have hg : (texts.isEmpty || !(texts.all fun t => !(pyStrip t).isEmpty)) = true := by
    rcases h with h | ⟨t, ht, hstrip⟩
    · subst h; rfl
    · simp only [Bool.or_eq_true, Bool.not_eq_true', List.all_eq_false]
      exact Or.inr ⟨t, ht, by simp [hstrip]⟩
  constructor <;> simp [Embedding.embed, hg]

/-- Witness for C4 at the concrete input `embed(["", "  "])`. -/
theorem embed_invalid_input_witness :
    (embeddingC.embed ["", "  "]).result
      = .error (.valueError "Input texts must be a non-empty list of non-empty strings.") ∧
    (embeddingC.embed ["", "  "]).calls = [] :=
  embed_invalid_input embeddingC ["", "  "]
    (Or.inr ⟨"", by decide, by decide⟩)

/-- C5: on a non-empty list of non-empty, non-whitespace texts, `embed`
returns a list exactly as long as `texts` whose `i`-th element is the model
embedding of `texts[i]`. -/
theorem embed_index_preserving (E : Embedding) (texts : List String)
    (hne : texts ≠ []) (hall : ∀ t ∈ texts, (pyStrip t).isEmpty = false) :
    ∃ vs, (E.embed texts).result = .ok vs ∧ vs.length = texts.length ∧
      ∀ i : Nat, vs[i]? = (texts[i]?).map E.encode := by
  have hg : (texts.isEmpty || !(texts.all fun t => !(pyStrip t).isEmpty)) = false := by
    simp only [Bool.or_eq_false_iff, Bool.not_eq_true']
    refine ⟨by simp [List.isEmpty_iff, hne], ?_⟩
    simp only [List.all_eq_true, Bool.not_eq_false']
    exact fun t ht => by simp [hall t ht]
  refine ⟨texts.map E.encode, ?_, by simp, fun i => by simp⟩
  simp [Embedding.embed, hg]

/-- Witness for C5 at the concrete input `embed(["hello world"])`. -/
theorem embed_index_preserving_witness :
    ∃ vs, (embeddingC.embed ["hello world"]).result = .ok vs ∧
      vs.length = (["hello world"] : List String).length ∧
      ∀ i : Nat, vs[i]? = ((["hello world"] : List String)[i]?).map embeddingC.encode :=
  embed_index_preserving embeddingC ["hello world"] (by decide)
    (fun t ht => by rw [List.mem_singleton] at ht; subst ht; decide)

/-- C6: each async entry point (`embed_texts`, `rerank_documents`,
`summarize_text`) produces exactly the outcome — result or raised error,
model calls, logs — of its synchronous counterpart on the same input, the
thread offload through `asyncio.to_thread` being observationally the direct
call. -/
theorem async_wrappers_forward (E : Embedding) (R : Reranker) (S : Summarization)
    (texts : List String) (q1 : String) (documents : List String) (q2 t2 : String) :
    embed_texts E texts = E.embed texts ∧
    rerank_documents R q1 documents = R.rerank q1 documents ∧
    summarize_text S q2 t2 = S.summarize q2 t2 :=
  ⟨rfl, rfl, rfl⟩

lemma summarize_text_invalid (S : Summarization) (query text : String)
    (ht : (pyStrip text).isEmpty = true) :
    S.summarize query text =
      { result := .error (.valueError "Input text must be a non-empty string.")
        calls := []
        logs := [] } := by
  have hg : (text.isEmpty || (pyStrip text).isEmpty) = true := by rw [ht]; simp
  simp [Summarization.summarize, hg]

lemma summarize_query_invalid (S : Summarization) (query text : String)
    (ht : (pyStrip text).isEmpty = false) (hq : (pyStrip query).isEmpty = true) :
    S.summarize query text =
      { result := .error (.valueError "Query must be a non-empty string.")
        calls := []
        logs := [] } := by
  have hgt := string_guard_false ht
  have hgq : (query.isEmpty || (pyStrip query).isEmpty) = true := by rw [hq]; simp
  simp [Summarization.summarize, hgt, hgq]

lemma summarize_too_long (S : Summarization) (query text : String)
    (ht : (pyStrip text).isEmpty = false) (hq : (pyStrip query).isEmpty = false)
    (hlen : 4096 < text.length) :
    S.summarize query text =
      { result := .error (.valueError "Input text exceeds the maximum length of 4096 characters.")
        calls := []
        logs := [] } := by
  have hgt := string_guard_false ht
  have hgq := string_guard_false hq
  simp [Summarization.summarize, hgt, hgq, hlen]

lemma summarize_valid_eq (S : Summarization) (query text : String)
    (ht : (pyStrip text).isEmpty = false) (hq : (pyStrip query).isEmpty = false)
    (hlen : text.length ≤ 4096) :
    S.summarize query text =
      { result :=
          match S.pipelineCall ("**Query: " ++ query ++ "\n\n**" ++ text) 150 30 false with
          | [] => .error (.indexError "list index out of range")
          | s :: _ => .ok s
        calls := [("**Query: " ++ query ++ "\n\n**" ++ text, 150, 30, false)]
        logs := [LogEntry.mk
          ("Summarizing text of length " ++ toString text.length ++ ".") "info"] } := by
  have hgt := string_guard_false ht
  have hgq := string_guard_false hq
  have hlen2 : ¬ text.length > 4096 := by omega
  simp only [Summarization.summarize, hgt, hgq, hlen2, Bool.false_eq_true, if_false, ite_false]
  cases S.pipelineCall ("**Query: " ++ query ++ "\n\n**" ++ text) 150 30 false <;> rfl

/-- C3: `summarize` raises `ValueError` ("InvalidInput") exactly when the text
is empty/whitespace-only, or the query is empty/whitespace-only, or the text
exceeds 4096 characters; the three checks fire in that order (the earliest
violated one determines the message), and any such failure happens with no
model call made. -/
theorem summarize_invalid_input_iff (S : Summarization) (query text : String) :
    ((∃ msg, (S.summarize query text).result = .error (.valueError msg)) ↔
      ((pyStrip text).isEmpty = true ∨ (pyStrip query).isEmpty = true ∨ 4096 < text.length)) ∧
    ((pyStrip text).isEmpty = true →
      (S.summarize query text).result
        = .error (.valueError "Input text must be a non-empty string.")) ∧
    ((pyStrip text).isEmpty = false → (pyStrip query).isEmpty = true →
      (S.summarize query text).result
        = .error (.valueError "Query must be a non-empty string.")) ∧
    ((pyStrip text).isEmpty = false → (pyStrip query).isEmpty = false → 4096 < text.length →
      (S.summarize query text).result
        = .error (.valueError "Input text exceeds the maximum length of 4096 characters.")) ∧
    ((∃ msg, (S.summarize query text).result = .error (.valueError msg)) →
      (S.summarize query text).calls = []) := by
  by_cases ht : (pyStrip text).isEmpty = true
  · rw [summarize_text_invalid S query text ht]
    exact ⟨⟨fun _ => Or.inl ht, fun _ => ⟨_, rfl⟩⟩, fun _ => rfl,
      fun h => absurd ht (by simp [h]), fun h => absurd ht (by simp [h]), fun _ => rfl⟩
  · rw [Bool.not_eq_true] at ht
    by_cases hq : (pyStrip query).isEmpty = true
    · rw [summarize_query_invalid S query text ht hq]
      exact ⟨⟨fun _ => Or.inr (Or.inl hq), fun _ => ⟨_, rfl⟩⟩,
        fun h => absurd ht (by simp [h]), fun _ _ => rfl,
        fun _ h => absurd hq (by simp [h]), fun _ => rfl⟩
    · rw [Bool.not_eq_true] at hq
      by_cases hlen : 4096 < text.length
      · rw [summarize_too_long S query text ht hq hlen]
        exact ⟨⟨fun _ => Or.inr (Or.inr hlen), fun _ => ⟨_, rfl⟩⟩,
          fun h => absurd ht (by simp [h]), fun _ h => absurd hq (by simp [h]),
          fun _ _ _ => rfl, fun _ => rfl⟩
      · have hlen2 : text.length ≤ 4096 := by omega
        rw [summarize_valid_eq S query text ht hq hlen2]
        have hnone : ¬ ∃ msg,
            (match S.pipelineCall ("**Query: " ++ query ++ "\n\n**" ++ text) 150 30 false with
              | [] => Except.error (PyError.indexError "list index out of range")
              | s :: _ => Except.ok s) = .error (.valueError msg) := by
          rintro ⟨msg, hmsg⟩
          cases hp : S.pipelineCall ("**Query: " ++ query ++ "\n\n**" ++ text) 150 30 false with
          | nil => rw [hp] at hmsg; simp at hmsg
          | cons s rest => rw [hp] at hmsg; simp at hmsg
        exact ⟨⟨fun h => absurd h hnone, fun h => by
            rcases h with h | h | h
            · rw [h] at ht; cases ht
            · rw [h] at hq; cases hq
            · omega⟩,
          fun h => absurd ht (by simp [h]), fun _ h => absurd hq (by simp [h]),
          fun _ _ h => by omega, fun h => absurd h hnone⟩

/-- Witness for C3: a whitespace-only text fails with the text message even
though the query is also invalid, and an over-long text with valid text and
query fails with the length message. -/
theorem summarize_invalid_input_iff_witness :
    (summarizationC.summarize " " "  ").result
      = .error (.valueError "Input text must be a non-empty string.") ∧
    (summarizationC.summarize " " "  ").calls = [] :=
  ⟨(summarize_invalid_input_iff summarizationC " " "  ").2.1 (by decide),
   (summarize_invalid_input_iff summarizationC " " "  ").2.2.2.2 ⟨_,
     (summarize_invalid_input_iff summarizationC " " "  ").2.1 (by decide)⟩⟩

/-- C7: on inputs passing the preconditions, `summarize` calls the model
exactly once, on the concatenation of the fixed label, the query, and the
text, with `max_length=150`, `min_length=30`, `do_sample=False`, and returns
the first generated summary. -/
theorem summarize_single_call (S : Summarization) (query text : String)
    (ht : (pyStrip text).isEmpty = false) (hq : (pyStrip query).isEmpty = false)
    (hlen : text.length ≤ 4096) (s : String) (rest : List String)
    (hm : S.pipelineCall ("**Query: " ++ query ++ "\n\n**" ++ text) 150 30 false = s :: rest) :
    (S.summarize query text).result = .ok s ∧
    (S.summarize query text).calls = [("**Query: " ++ query ++ "\n\n**" ++ text, 150, 30, false)] := by
  rw [summarize_valid_eq S query text ht hq hlen]
  exact ⟨by simp [hm], rfl⟩

/-- Witness for C7 at the concrete input `summarize("q", "t")`. -/
theorem summarize_single_call_witness :
    (summarizationC.summarize "q" "t").result = .ok "ok summary" ∧
    (summarizationC.summarize "q" "t").calls
      = [("**Query: " ++ "q" ++ "\n\n**" ++ "t", 150, 30, false)] :=
  summarize_single_call summarizationC "q" "t" (by decide) (by decide) (by decide)
    "ok summary" [] rfl

/-- C9: when the summarization model returns a non-empty first summary (its
contract under `min_length=30`), `summarize` succeeds on every input passing
the three preconditions and returns a non-empty string. -/
theorem summarize_succeeds_nonempty (S : Summarization)
    (hmodel : ∀ inp, ∃ s rest, S.pipelineCall inp 150 30 false = s :: rest ∧ s ≠ "")
    (query text : String) (ht : (pyStrip text).isEmpty = false)
    (hq : (pyStrip query).isEmpty = false) (hlen : text.length ≤ 4096) :
    ∃ out, (S.summarize query text).result = .ok out ∧ out ≠ "" := by
  obtain ⟨s, rest, hm, hs⟩ := hmodel ("**Query: " ++ query ++ "\n\n**" ++ text)
  refine ⟨s, ?_, hs⟩
  rw [summarize_valid_eq S query text ht hq hlen]
  simp [hm]

/-- Witness for C9 at the concrete input `summarize("q", "some text")`. -/
theorem summarize_succeeds_nonempty_witness :
    ∃ out, (summarizationC.summarize "q" "some text").result = .ok out ∧ out ≠ "" :=
  summarize_succeeds_nonempty summarizationC
    (fun _ => ⟨"ok summary", [], rfl, by decide⟩) "q" "some text"
    (by decide) (by decide) (by decide)

lemma rerank_bad_query_eq (R : Reranker) (query : String) (documents : List String)
    (h : (pyStrip query).isEmpty = true) :
    R.rerank query documents =
      { result := .error (.valueError "Query must be a non-empty string.")
        calls := []
        logs := [] } := by
  have hg : (query.isEmpty || (pyStrip query).isEmpty) = true := by rw [h]; simp
  simp [Reranker.rerank, hg]

lemma rerank_nil_eq (R : Reranker) (query : String)
    (hq : (pyStrip query).isEmpty = false) :
    R.rerank query [] =
      { result := .ok ([], [])
        calls := []
        logs := [⟨"Received empty documents list for reranking.", "warning"⟩] } := by
  simp [Reranker.rerank, string_guard_false hq]

lemma rerank_single_eq (R : Reranker) (query d : String)
    (hq : (pyStrip query).isEmpty = false) :
    R.rerank query [d] =
      { result := .ok ([], [])
        calls := []
        logs := [⟨"No documents provided for reranking.", "warning"⟩] } := by
  simp [Reranker.rerank, string_guard_false hq]

lemma rerank_main_result (R : Reranker) (query : String) (documents : List String)
    (hq : (pyStrip query).isEmpty = false) (h2 : 2 ≤ documents.length)
    (hm : (R.compute_score (documents.map fun doc => [query, doc])).length
      = documents.length) :
    R.rerank query documents =
      { result := .ok
          ((((documents.zip
                (R.compute_score (documents.map fun doc => [query, doc]))).insertionSort
              fun a b => b.2 ≤ a.2).map Prod.fst),
           (((documents.zip
                (R.compute_score (documents.map fun doc => [query, doc]))).insertionSort
              fun a b => b.2 ≤ a.2).map Prod.snd))
        calls := [documents.map fun doc => [query, doc]]
        logs := [LogEntry.mk ("Reranking " ++ toString documents.length ++
          " documents for query: " ++ query) "info"] } := by
  have hg := string_guard_false hq
  have hne : documents.isEmpty = false := by
    cases documents with
    | nil => simp at h2
    | cons a l => rfl
  have hlt : ¬ documents.length < 2 := by omega
  have hbeq : (documents.length == 1) = false := by
    simp only [beq_eq_false_iff_ne, ne_eq]
    omega
  have hzlen : (((documents.zip
        (R.compute_score (documents.map fun doc => [query, doc]))).insertionSort
      fun a b => b.2 ≤ a.2).length) = documents.length := by
    rw [List.length_insertionSort, List.length_zip, hm, Nat.min_self]
  have hnonempty : (((documents.zip
        (R.compute_score (documents.map fun doc => [query, doc]))).insertionSort
      fun a b => b.2 ≤ a.2).isEmpty) = false := by
    rw [← Bool.not_eq_true, List.isEmpty_iff]
    intro hcon
    rw [hcon] at hzlen
    simp at hzlen
    omega
  simp only [Reranker.rerank, hg, hne, hbeq, hnonempty, Bool.false_eq_true, if_false]
  rw [if_neg hlt]

/-- C1: for a valid query and at least two documents (the model returning one
score per sentence pair), `rerank` returns two parallel lists of the input's
length, the score list is non-increasing, the returned (document, score)
pairs are a permutation of the input (document, model score) pairs, and the
returned documents are a permutation of the input documents. -/
theorem rerank_sorted_descending (R : Reranker) (query : String) (documents : List String)
    (hq : (pyStrip query).isEmpty = false) (h2 : 2 ≤ documents.length)
    (hm : (R.compute_score (documents.map fun doc => [query, doc])).length
      = documents.length) :
    ∃ ds ss,
      (R.rerank query documents).result = .ok (ds, ss) ∧
      ds.length = documents.length ∧
      ss.length = documents.length ∧
      ss.Pairwise (fun a b => b ≤ a) ∧
      (ds.zip ss).Perm
        (documents.zip (R.compute_score (documents.map fun doc => [query, doc]))) ∧
      ds.Perm documents := by
  rw [rerank_main_result R query documents hq h2 hm]
  set scores := R.compute_score (documents.map fun doc => [query, doc]) with hsc
  set pairs := documents.zip scores with hpairs
  set reranked := pairs.insertionSort (fun a b => b.2 ≤ a.2) with hrr
  have hplen : pairs.length = documents.length := by
    rw [hpairs, List.length_zip, hm, Nat.min_self]
  have hrlen : reranked.length = documents.length := by
    rw [hrr, List.length_insertionSort, hplen]
  haveI htotal : IsTotal (String × Int) (fun a b => b.2 ≤ a.2) :=
    ⟨fun a b => le_total b.2 a.2⟩
  haveI htrans : IsTrans (String × Int) (fun a b => b.2 ≤ a.2) :=
    ⟨fun a b c h1 h2 => le_trans h2 h1⟩
  have hperm : reranked.Perm pairs := by
    rw [hrr]; exact List.perm_insertionSort _ _
  have hz : (reranked.map Prod.fst).zip (reranked.map Prod.snd) = reranked := by
    rw [List.zip_map']
    simp
  refine ⟨reranked.map Prod.fst, reranked.map Prod.snd, rfl, by simp [hrlen],
    by simp [hrlen], ?_, ?_, ?_⟩
  · have hs : List.Sorted (fun a b => b.2 ≤ a.2) reranked := by
      rw [hrr]; exact List.sorted_insertionSort _ _
    exact List.Pairwise.map Prod.snd (fun a b h => h) hs
  · rw [hz]
    exact hperm
  · have hfst : pairs.map Prod.fst = documents := by
      rw [hpairs]
      exact List.map_fst_zip documents scores (by omega)
    exact hfst ▸ hperm.map Prod.fst

/-- Witness for C1 at the concrete input `rerank("q", ["dd", "e"])`. -/
theorem rerank_sorted_descending_witness :
    ∃ ds ss,
      (rerankerC.rerank "q" ["dd", "e"]).result = .ok (ds, ss) ∧
      ds.length = (["dd", "e"] : List String).length ∧
      ss.length = (["dd", "e"] : List String).length ∧
      ss.Pairwise (fun a b => b ≤ a) ∧
      (ds.zip ss).Perm ((["dd", "e"] : List String).zip
        (rerankerC.compute_score ((["dd", "e"] : List String).map fun doc => ["q", doc]))) ∧
      ds.Perm ["dd", "e"] :=
  rerank_sorted_descending rerankerC "q" ["dd", "e"] (by decide) (by decide) (by rfl)

/-- C10: the `len(documents) == 1` branch inside `rerank` is dead code —
removing it changes the function on no input — and (the model returning one
score per pair) `rerank` never returns a document list of exactly one
element. -/
theorem rerank_singleton_unreachable :
    (∀ (R : Reranker) (query : String) (documents : List String),
        R.rerank query documents = R.rerankNoSingleton query documents) ∧
    (∀ (R : Reranker) (query : String) (documents : List String)
        (ds : List String) (ss : List Int),
        (R.compute_score (documents.map fun doc => [query, doc])).length
          = documents.length →
        (R.rerank query documents).result = .ok (ds, ss) → ds.length ≠ 1) := by
  constructor
  · intro R query documents
    by_cases hg : (query.isEmpty || (pyStrip query).isEmpty) = true
    · simp [Reranker.rerank, Reranker.rerankNoSingleton, hg]
    · rw [Bool.not_eq_true] at hg
      cases documents with
      | nil => simp [Reranker.rerank, Reranker.rerankNoSingleton, hg]
      | cons d rest =>
        cases rest with
        | nil => simp [Reranker.rerank, Reranker.rerankNoSingleton, hg]
        | cons d2 rest2 =>
          have hbeq : ((d :: d2 :: rest2).length == 1) = false := by
            simp only [List.length_cons, beq_eq_false_iff_ne, ne_eq]
            omega
          have hlt : ¬ (d :: d2 :: rest2).length < 2 := by
            simp only [List.length_cons]
            omega
          simp only [Reranker.rerank, Reranker.rerankNoSingleton, hg, hbeq,
            Bool.false_eq_true, if_false]
  · intro R query documents ds ss hm hres
    by_cases hq : (pyStrip query).isEmpty = true
    · rw [rerank_bad_query_eq R query documents hq] at hres
      simp at hres
    · rw [Bool.not_eq_true] at hq
      cases documents with
      | nil =>
        rw [rerank_nil_eq R query hq] at hres
        simp only [Except.ok.injEq, Prod.mk.injEq] at hres
        rw [← hres.1]
        decide
      | cons d rest =>
        cases rest with
        | nil =>
          rw [rerank_single_eq R query d hq] at hres
          simp only [Except.ok.injEq, Prod.mk.injEq] at hres
          rw [← hres.1]
          decide
        | cons d2 rest2 =>
          have h2 : 2 ≤ (d :: d2 :: rest2).length := by
            simp only [List.length_cons]
            omega
          rw [rerank_main_result R query (d :: d2 :: rest2) hq h2 hm] at hres
          simp only [Except.ok.injEq, Prod.mk.injEq] at hres
          have hlen : ds.length = (d :: d2 :: rest2).length := by
            rw [← hres.1, List.length_map, List.length_insertionSort, List.length_zip,
              hm, Nat.min_self]
          simp only [List.length_cons] at hlen
          omega

/-- Witness for C10 at the concrete input `rerank("q", ["dd", "e"])`. -/
theorem rerank_singleton_unreachable_witness :
    rerankerC.rerank "q" ["dd", "e"] = rerankerC.rerankNoSingleton "q" ["dd", "e"] ∧
    (["dd", "e"] : List String).length ≠ 1 :=
  ⟨rerank_singleton_unreachable.1 rerankerC "q" ["dd", "e"],
   rerank_singleton_unreachable.2 rerankerC "q" ["dd", "e"] ["dd", "e"] [2, 1]
     (by rfl) (by rfl)⟩


end Resumidor
